import Mathlib

/-!
Shallow embedding of the FastAPI website backend's request workflow
(`app/routers/requests.py`, `app/routers/admin.py`, `app/utils/response.py`).

Database tables are modelled as Lean lists of rows; each HTTP handler becomes a
pure function from its parameters and the database state to a response envelope
and the new database state.  SQLAlchemy's `query(...).filter(...).first()` is
modelled by `List.find?`, identity-column assignment by `max id + 1`, and
`datetime` values by opaque `Nat` timestamps / preformatted date strings passed
as inputs.  Background e-mail tasks are not modelled (they touch no table).
-/

/-! ### Response envelope (`app/utils/response.py`) -/

/-- Response envelope: either the success dict `{success: true, message,
message_ar, data}` or the error dict `{success: false, message, message_ar,
error_code}` returned by `success_response` / `error_response`. -/
inductive Resp (α : Type) : Type
  | success (message : String) (message_ar : String) (data : Option α)
  | error (message : String) (message_ar : String) (error_code : Option String)
  deriving Repr, DecidableEq

/-- Python truthiness fallback `message_ar or message_en` for optional strings. -/
def orElseStr (ar : Option String) (en : String) : String :=
  match ar with
  | none => en
  | some a => if a = "" then en else a

/-- `success_response(message_en, message_ar=None, data=None)`. -/
def success_response (message_en : String) (message_ar : Option String)
    (data : Option α) : Resp α :=
  .success message_en (orElseStr message_ar message_en) data

/-- `error_response(message_en, message_ar=None, error_code=None)`. -/
def error_response (α : Type) (message_en : String) (message_ar : Option String)
    (error_code : Option String) : Resp α :=
  .error message_en (orElseStr message_ar message_en) error_code

/-- Whether an envelope is the success variant (`success: true`). -/
def Resp.isSuccess : Resp α → Bool
  | .success _ _ _ => true
  | .error _ _ _ => false

/-- An `HTTPException` raised by a dependency: transport-level failure carrying
an HTTP status code and a `detail` string, not a response envelope. -/
structure HTTPExc where
  status : Nat
  detail : String
  deriving Repr, DecidableEq

/-! ### Decimal strings: `str(n)` and `str.zfill` -/

/-- Python's `s.zfill(w)`: left-pad with `'0'` to width `w`. -/
def zfill (w : Nat) (s : String) : String :=
  if w ≤ s.length then s else String.mk (List.replicate (w - s.length) '0') ++ s

/-- The request-number format `f"RQ-{date}-{str(seq).zfill(4)}"`. -/
def rqNumber (date : String) (seq : Nat) : String :=
  "RQ-" ++ date ++ "-" ++ zfill 4 (Nat.repr seq)

/-- Decimal decoding of a character list (left inverse for rendering). -/
def decodeList (l : List Char) : Nat :=
  l.foldl (fun a c => a * 10 + (c.toNat - 48)) 0

theorem charToNat_digitChar {d : Nat} (h : d < 10) :
    (Nat.digitChar d).toNat - 48 = d := by
  interval_cases d <;> rfl

theorem foldl_digitChar (M : List Nat) (h : ∀ d ∈ M, d < 10) :
    ∀ a : Nat,
      M.foldl (fun x d => x * 10 + ((Nat.digitChar d).toNat - 48)) a
        = M.foldl (fun x d => x * 10 + d) a := by
  induction M with
  | nil => intro a; rfl
  | cons d T ih =>
      intro a
      have hd : d < 10 := h d (List.mem_cons_self d T)
      simp only [List.foldl_cons, charToNat_digitChar hd]
      exact ih (fun x hx => h x (List.mem_cons_of_mem d hx)) _

theorem foldl_reverse_digits (L : List Nat) :
    ∀ a : Nat, L.reverse.foldl (fun x d => x * 10 + d) a
      = a * 10 ^ L.length + Nat.ofDigits 10 L := by
  induction L with
  | nil => intro a; simp [Nat.ofDigits_nil]
  | cons d T ih =>
      intro a
      simp only [List.reverse_cons, List.foldl_append, List.foldl_cons,
        List.foldl_nil, ih a, List.length_cons, Nat.ofDigits_cons]
      ring

/-- `Nat.toDigitsCore` agrees with `Nat.digits` (reversed, rendered). -/
theorem toDigitsCore_eq_digits (n : Nat) (hn : 0 < n) :
    ∀ (f : Nat) (acc : List Char), n < 10 ^ f →
      Nat.toDigitsCore 10 f n acc
        = ((Nat.digits 10 n).reverse.map Nat.digitChar) ++ acc := by
  induction n using Nat.strong_induction_on with
  | _ n ih =>
      intro f acc hf
      match f with
      | 0 => simp at hf; omega
      | f + 1 =>
          have hdig : Nat.digits 10 n = n % 10 :: Nat.digits 10 (n / 10) :=
            Nat.digits_def' (by norm_num) hn
          by_cases hz : n / 10 = 0
          · have hlt : n < 10 := by omega
            have : Nat.digits 10 (n / 10) = [] := by rw [hz, Nat.digits_zero]
            rw [hdig] at *
            simp [Nat.toDigitsCore, hz, this, Nat.mod_eq_of_lt hlt]
          · have hq : 0 < n / 10 := Nat.pos_of_ne_zero hz
            have hlt : n / 10 < n := Nat.div_lt_self hn (by norm_num)
            have hb : n / 10 < 10 ^ f := by
              rw [Nat.div_lt_iff_lt_mul (by norm_num)]
              calc n < 10 ^ (f + 1) := hf
                _ = 10 ^ f * 10 := by ring
            have := ih (n / 10) hlt hq f (Nat.digitChar (n % 10) :: acc) hb
            rw [Nat.toDigitsCore]
            simp only [hz, if_false]
            rw [this, hdig]
            simp [List.map_append]

/-- For positive `n`, `str(n)` is the decimal digits of `n`, most significant
first. -/
theorem repr_eq_digits (n : Nat) (hn : 0 < n) :
    Nat.repr n = ((Nat.digits 10 n).reverse.map Nat.digitChar).asString := by
  have h1 : n < 10 ^ (n + 1) :=
    lt_of_lt_of_le (Nat.lt_pow_self (by norm_num) n)
      (Nat.pow_le_pow_right (by norm_num) (Nat.le_succ n))
  have : Nat.toDigits 10 n = Nat.toDigitsCore 10 (n + 1) n [] := rfl
  rw [Nat.repr, this, toDigitsCore_eq_digits n hn (n + 1) [] h1, List.append_nil]

/-- Decoding the rendered decimal string of `n` recovers `n`. -/
theorem decode_repr (n : Nat) : decodeList (Nat.repr n).data = n := by
  rcases Nat.eq_zero_or_pos n with h | h
  · subst h; rfl
  · rw [repr_eq_digits n h]
    show decodeList ((Nat.digits 10 n).reverse.map Nat.digitChar) = n
    unfold decodeList
    rw [List.foldl_map]
    rw [foldl_digitChar _ (fun d hd =>
      Nat.digits_lt_base (by norm_num) (List.mem_reverse.mp hd)) 0]
    rw [foldl_reverse_digits, Nat.ofDigits_digits]
    simp

theorem foldl_replicate_zero (k : Nat) :
    List.foldl (fun a c => a * 10 + (c.toNat - 48)) 0 (List.replicate k '0') = 0 := by
  induction k with
  | zero => rfl
  | succ k ih => simpa [List.replicate_succ] using ih

/-- Decoding is insensitive to the zero padding added by `zfill`. -/
theorem decode_zfill_repr (w n : Nat) : decodeList (zfill w (Nat.repr n)).data = n := by
  unfold zfill
  by_cases h : w ≤ (Nat.repr n).length
  · simpa [h] using decode_repr n
  · simp only [h, if_false]
    rw [String.data_append]
    show List.foldl _ 0 _ = n
    rw [List.foldl_append]
    have : (String.mk (List.replicate (w - (Nat.repr n).length) '0')).data
        = List.replicate (w - (Nat.repr n).length) '0' := rfl
    rw [this, foldl_replicate_zero]
    exact decode_repr n

theorem stringDataInj {s t : String} (h : s.data = t.data) : s = t := by
  cases s; cases t; cases h; rfl

/-- Two request numbers generated for the same date with different sequence
values are different strings. -/
theorem rqNumber_inj (date : String) {a b : Nat} (h : rqNumber date a = rqNumber date b) :
    a = b := by
  have hd : (rqNumber date a).data = (rqNumber date b).data := by rw [h]
  unfold rqNumber at hd
  simp only [String.data_append, List.append_assoc] at hd
  have h2 := List.append_cancel_left (List.append_cancel_left
    (List.append_cancel_left hd))
  have ha := decode_zfill_repr 4 a
  have hb := decode_zfill_repr 4 b
  rw [show (zfill 4 (Nat.repr a)).data = (zfill 4 (Nat.repr b)).data from h2] at ha
  omega

/-! ### Data model (rows of the tables touched by the request workflow) -/

/-- A row of the `Requests.Request` table. -/
structure RequestRow where
  Id : Nat
  UserId : Option Nat
  CategoryId : Nat
  ComplaintScreenId : Option Nat
  Subject : Option String
  Body : Option String
  AssignedRoleId : Option Nat
  RequestNumber : String
  StatusId : Option Nat
  AttachPath : Option String
  CreatedAt : Nat
  CreatedByUserID : Option Nat
  UpdatedAt : Option Nat
  UpdatedByUserID : Option Nat
  deriving Repr, DecidableEq

/-- A row of the `Requests.RequestData` extension table (category 8). -/
structure RequestDataRow where
  RequestId : Nat
  ProspectiveName : Option String
  Coordinate_TopLeft : Option String
  Coordinate_BottomRight : Option String
  ProjectionId : Option Nat
  OtherSpecification : Option String
  OtherFormat : Option String
  IntendedPurpose : Option String
  RequirementsDetails : Option String
  CreatedAt : Nat
  deriving Repr, DecidableEq

/-- A row of the `Reply` table. -/
structure ReplyRow where
  Id : Nat
  RequestId : Nat
  Subject : Option String
  Body : Option String
  AttachmentPath : Option String
  ResponderUserId : Nat
  CreatedAt : Nat
  CreatedByUserID : Nat
  IsDeleted : Bool
  deriving Repr, DecidableEq

/-- A row of the `Users` table (fields read by the workflow). -/
structure UserRow where
  UserID : Nat
  RoleID : Nat
  Email : Option String
  FirstName : String
  deriving Repr, DecidableEq

/-- A bilingual lookup row (`Status`, `Category`, `ComplaintScreen`,
`RequestInformation`). -/
structure LookupRow where
  Id : Nat
  Name : String
  Name_Ar : String
  deriving Repr, DecidableEq

/-- A row of the `Projection` or `Format` lookup table (English name only is
read by the workflow). -/
structure NamedRow where
  Id : Nat
  Name : String
  deriving Repr, DecidableEq

/-- The database state: one list per table, in insertion order. -/
structure DB where
  requests : List RequestRow
  requestData : List RequestDataRow
  replies : List ReplyRow
  reqInfoAssoc : List (Nat × Nat)
  reqFormatAssoc : List (Nat × Nat)
  users : List UserRow
  statuses : List LookupRow
  categories : List LookupRow
  complaintScreens : List LookupRow
  requestInformation : List LookupRow
  projections : List NamedRow
  formats : List NamedRow
  deriving Repr, DecidableEq

/-- Highest `Id` in the `Request` table (`0` when the table is empty); the
identity column assigns `maxRequestId + 1` to the next inserted row. -/
def maxRequestId (db : DB) : Nat :=
  db.requests.foldl (fun m r => max m r.Id) 0

/-- Highest `Id` in the `Reply` table. -/
def maxReplyId (db : DB) : Nat :=
  db.replies.foldl (fun m r => max m r.Id) 0

/-! ### Request creation (`create_request`, `app/routers/requests.py`) -/

/-- The multipart-form input of `POST /requests/`, together with the
authenticated user and the clock values read while handling it (`date` is
`datetime.now().strftime("%Y%m%d")`, `tsName` the timestamp prefix used for
the saved attachment file name). -/
structure CreateInput where
  CategoryId : Nat
  ComplaintScreenId : Option Nat
  Subject : Option String
  Body : Option String
  ProspectiveName : Option String
  Coordinate_TopLeft : Option String
  Coordinate_BottomRight : Option String
  ProjectionId : Option Nat
  OtherSpecification : Option String
  OtherFormat : Option String
  IntendedPurpose : Option String
  RequirementsDetails : Option String
  RequestInformationIds : Option String
  FormatIds : Option String
  attachFilename : Option String
  user : UserRow
  date : String
  tsName : String
  now : Nat
  deriving Repr, DecidableEq

/-- The success payload of `create_request`. -/
structure CreateOut where
  request_id : Nat
  request_number : String
  AttachPath : Option String
  deriving Repr, DecidableEq

/-- `v.split(",")` over the character list: split at every comma, so `n`
commas give `n + 1` (possibly empty) tokens. -/
def splitOnComma : List Char → List (List Char)
  | [] => [[]]
  | c :: rest =>
      match splitOnComma rest with
      | [] => [[]]
      | cur :: done => if c = ',' then [] :: cur :: done else (c :: cur) :: done

/-- Python's `x.strip()`: drop leading and trailing whitespace. -/
def stripChars (l : List Char) : List Char :=
  ((l.dropWhile Char.isWhitespace).reverse.dropWhile Char.isWhitespace).reverse

/-- `parse_list(v)` from `create_request`, i.e.
`[int(x.strip()) for x in v.split(",") if x.strip().isdigit()] if v else []`:
split on `","`, keep the tokens that are non-empty digit strings after
stripping, convert them to integers; duplicates are preserved; `None`/empty
input gives `[]`. -/
def parse_list (v : Option String) : List Nat :=
  match v with
  | none => []
  | some v =>
      if v = "" then []
      else (splitOnComma v.data).filterMap (fun tok =>
        let t := stripChars tok
        if t ≠ [] ∧ t.all Char.isDigit then some (decodeList t) else none)

/-- Normalization `if ProjectionId in (0, "0", "", None): ProjectionId = None`. -/
def normalizeProjection (p : Option Nat) : Option Nat :=
  if p = some 0 ∨ p = none then none else p

/-- Whether a (normalized, hence non-zero) `ProjectionId` fails to resolve
against the `Projection` lookup table. -/
def projectionInvalid (db : DB) (pid : Option Nat) : Bool :=
  match pid with
  | none => false
  | some p => (db.projections.find? (fun row => row.Id == p)).isNone

/-- The `Request` row inserted by `create_request` (the identity column
assigns `maxRequestId db + 1`). -/
def newRequestRow (inp : CreateInput) (db : DB) : RequestRow :=
  { Id := maxRequestId db + 1
    UserId := some inp.user.UserID
    CategoryId := inp.CategoryId
    ComplaintScreenId := inp.ComplaintScreenId
    Subject := inp.Subject
    Body := inp.Body
    AssignedRoleId := none
    RequestNumber := rqNumber inp.date
      (if db.requests.isEmpty then 1 else maxRequestId db + 1)
    StatusId := some 7
    AttachPath := inp.attachFilename.map
      (fun fn => "requests/" ++ inp.tsName ++ "_" ++ fn.replace " " "_")
    CreatedAt := inp.now
    CreatedByUserID := none
    UpdatedAt := none
    UpdatedByUserID := none }

/-- `create_request`: save the attachment, generate the request number from
the highest existing request id, validate `ProjectionId` (0/absent is
normalized to NULL, any other value must exist in `Projection`), insert the
`Request` row (status 7, no assigned role), the `RequestData` row when the
category is 8, and one association row per parsed tag id.  Returns the
response envelope and the new database state. -/
def create_request (inp : CreateInput) (db : DB) : Resp CreateOut × DB :=
  let attach_rel : Option String :=
    inp.attachFilename.map
      (fun fn => "requests/" ++ inp.tsName ++ "_" ++ fn.replace " " "_")
  let next_number : Nat :=
    if db.requests.isEmpty then 1 else maxRequestId db + 1
  let request_number : String := rqNumber inp.date next_number
  let projectionId : Option Nat := normalizeProjection inp.ProjectionId
  if projectionInvalid db projectionId then
    (error_response CreateOut "Invalid ProjectionId" (some "معرف الإسقاط غير صالح") none, db)
  else
    let newId : Nat := maxRequestId db + 1
    let newReq : RequestRow := newRequestRow inp db
    let db1 : DB := { db with requests := db.requests ++ [newReq] }
    let db2 : DB :=
      if inp.CategoryId = 8 then
        { db1 with requestData := db1.requestData ++
            [{ RequestId := newId
               ProspectiveName := inp.ProspectiveName
               Coordinate_TopLeft := inp.Coordinate_TopLeft
               Coordinate_BottomRight := inp.Coordinate_BottomRight
               ProjectionId := projectionId
               OtherSpecification := inp.OtherSpecification
               OtherFormat := inp.OtherFormat
               IntendedPurpose := inp.IntendedPurpose
               RequirementsDetails := inp.RequirementsDetails
               CreatedAt := inp.now }] }
      else db1
    let db3 : DB :=
      { db2 with
          reqInfoAssoc := db2.reqInfoAssoc ++
            (parse_list inp.RequestInformationIds).map (fun i => (newId, i))
          reqFormatAssoc := db2.reqFormatAssoc ++
            (parse_list inp.FormatIds).map (fun f => (newId, f)) }
    (success_response "Request created successfully" (some "تم إنشاء الطلب بنجاح")
      (some { request_id := newId
              request_number := request_number
              AttachPath := attach_rel }), db3)

/-! ### Admin dependencies and endpoints (`app/routers/admin.py`) -/

/-- Python truthiness of an optional string (`None` and `""` are falsy). -/
def pyFalsyStr (s : Option String) : Bool :=
  match s with
  | none => true
  | some s => s == ""

/-- `get_current_user`: resolve the JWT payload's user id; raises
`HTTPException(401)` when the user row does not exist. -/
def get_current_user (payload_user_id : Nat) (db : DB) : Except HTTPExc UserRow :=
  match db.users.find? (fun u => u.UserID == payload_user_id) with
  | none => .error { status := 401, detail := "User not found" }
  | some u => .ok u

/-- `require_admin`: raises `HTTPException(403)` unless the caller's role id
is 1. -/
def require_admin (user : UserRow) : Except HTTPExc UserRow :=
  if user.RoleID ≠ 1 then .error { status := 403, detail := "Admins only" }
  else .ok user

/-- The success payload of `assign_request`. -/
structure AssignOut where
  request_id : Nat
  deriving Repr, DecidableEq

/-- `assign_request`: set the request's `AssignedRoleId`; `REQUEST_NOT_FOUND`
error when the request id does not resolve. -/
def assign_request (request_id role_id : Nat) (db : DB) : Resp AssignOut × DB :=
  match db.requests.find? (fun r => r.Id == request_id) with
  | none =>
      (error_response AssignOut "Request not found" (some "الطلب غير موجود")
        (some "REQUEST_NOT_FOUND"), db)
  | some req =>
      (success_response "Request assigned successfully" (some "تم تعيين الطلب بنجاح")
        (some { request_id := req.Id }),
       { db with requests := db.requests.map (fun r =>
           if r.Id = request_id then { r with AssignedRoleId := some role_id } else r) })

/-- A row of the admin request listing (resolved lookups joined outer). -/
structure ListRow where
  id : Nat
  number : String
  created_at : Nat
  status_name_en : Option String
  status_name_ar : Option String
  type_name_en : Option String
  type_name_ar : Option String
  user_email : Option String
  subject : Option String
  body : Option String
  AssignedRoleId : Option Nat
  deriving Repr, DecidableEq

/-- The success payload of `GET /admin/requests`. -/
structure ListOut where
  page : Nat
  limit : Nat
  count : Nat
  total : Nat
  requests : List ListRow
  deriving Repr, DecidableEq

/-- The outer joins of the listing query: resolve status, category and user
of one request row (NULL foreign keys resolve to nothing). -/
def enrichRow (db : DB) (req : RequestRow) : ListRow :=
  let status := req.StatusId.bind (fun s => db.statuses.find? (fun row => row.Id == s))
  let category := some req.CategoryId |>.bind
    (fun c => db.categories.find? (fun row => row.Id == c))
  let user := req.UserId.bind (fun u => db.users.find? (fun row => row.UserID == u))
  { id := req.Id
    number := req.RequestNumber
    created_at := req.CreatedAt
    status_name_en := status.map (fun s => s.Name)
    status_name_ar := status.map (fun s => s.Name_Ar)
    type_name_en := category.map (fun c => c.Name)
    type_name_ar := category.map (fun c => c.Name_Ar)
    user_email := user.bind (fun u => u.Email)
    subject := req.Subject
    body := req.Body
    AssignedRoleId := req.AssignedRoleId }

/-- `ORDER BY Request.CreatedAt DESC` as a relation on request rows. -/
def createdGE (a b : RequestRow) : Prop := b.CreatedAt ≤ a.CreatedAt

instance : DecidableRel createdGE := fun a b => Nat.decLe b.CreatedAt a.CreatedAt

instance : IsTotal RequestRow createdGE :=
  ⟨fun a b => (Nat.le_total b.CreatedAt a.CreatedAt).elim Or.inl Or.inr⟩

instance : IsTrans RequestRow createdGE :=
  ⟨fun _ _ _ h1 h2 => Nat.le_trans h2 h1⟩

/-- `list_requests` (the handler body, after FastAPI validated the query
parameters): paginated listing of all requests ordered by creation time
descending, each row enriched by the outer joins. -/
def list_requests (page limit : Nat) (db : DB) : Resp ListOut × DB :=
  let skip := (page - 1) * limit
  let sorted := List.insertionSort createdGE db.requests
  let results := ((sorted.drop skip).take limit).map (enrichRow db)
  (success_response "Requests fetched successfully" (some "تم جلب الطلبات بنجاح")
    (some { page := page
            limit := limit
            count := results.length
            total := db.requests.length
            requests := results }), db)

/-- `GET /admin/requests` including FastAPI's `Query(ge=1)` / `Query(ge=1,
le=200)` validation, which rejects out-of-range values with a transport-level
422 before the handler runs. -/
def list_requests_endpoint (page limit : Int) (db : DB) :
    Except HTTPExc (Resp ListOut × DB) :=
  if page < 1 ∨ limit < 1 ∨ 200 < limit then
    .error { status := 422, detail := "Unprocessable Entity" }
  else .ok (list_requests page.toNat limit.toNat db)

/-- Lookup used by `get_request_details`: the query only runs when the stored
foreign key is truthy (non-NULL and non-zero). -/
def lookupIfTruthy (tbl : List LookupRow) (i : Option Nat) : Option LookupRow :=
  match i with
  | none => none
  | some x => if x = 0 then none else tbl.find? (fun row => row.Id == x)

/-- A reply entry of the details payload. -/
structure ReplyView where
  id : Nat
  subject : Option String
  body : Option String
  attachment_path : Option String
  created_at : Nat
  created_by : Nat
  responder_user_id : Nat
  deriving Repr, DecidableEq

/-- The `RequestData` block merged into the details payload for category 8. -/
structure RequestDataView where
  prospective_name : Option String
  coordinates : Option (Option String × Option String)
  projection : Option String
  other_specification : Option String
  other_format : Option String
  intended_purpose : Option String
  requirements_details : Option String
  created_at : Nat
  deriving Repr, DecidableEq

/-- The details payload of `GET /admin/request-details/` (bilingual lookup
dicts are modelled as `(Name_ar, Name_En)` pairs, the empty dict as `none`). -/
structure Details where
  id : Nat
  number : String
  status : Option (String × String)
  type : Option (String × String)
  user_email : Option String
  subject : Option String
  body : Option String
  complaint_screen : Option (String × String)
  assigned_role_id : Option Nat
  attach_path : Option String
  created_at : Nat
  created_by : Option Nat
  updated_at : Option Nat
  updated_by : Option Nat
  request_information : List (String × String)
  formats : List String
  replies : List ReplyView
  request_data : Option RequestDataView
  deriving Repr, DecidableEq

/-- `get_request_details`: resolve the request's lookups (with Python
truthiness guards on the stored foreign keys), join the tag association
tables, list the non-deleted replies, and add the `RequestData` block when
the resolved category has id 8.  Read-only. -/
def get_request_details (request_id : Nat) (db : DB) : Resp Details :=
  match db.requests.find? (fun r => r.Id == request_id) with
  | none =>
      error_response Details "Request not found" (some "الطلب غير موجود")
        (some "REQUEST_NOT_FOUND")
  | some req =>
      let user : Option UserRow := match req.UserId with
        | none => none
        | some u => if u = 0 then none
                    else db.users.find? (fun row => row.UserID == u)
      let category := if req.CategoryId = 0 then none
        else db.categories.find? (fun row => row.Id == req.CategoryId)
      let status := lookupIfTruthy db.statuses req.StatusId
      let complaint_screen := lookupIfTruthy db.complaintScreens req.ComplaintScreenId
      let request_info := (db.reqInfoAssoc.filter (fun a => a.1 == req.Id)).filterMap
        (fun a => db.requestInformation.find? (fun ri => ri.Id == a.2))
      let formats := (db.reqFormatAssoc.filter (fun a => a.1 == req.Id)).filterMap
        (fun a => db.formats.find? (fun f => f.Id == a.2))
      let replies := db.replies.filter
        (fun rp => rp.RequestId == req.Id && rp.IsDeleted == false)
      let request_data : Option RequestDataView :=
        match category with
        | none => none
        | some cat =>
            if cat.Id = 8 then
              match db.requestData.find? (fun rd => rd.RequestId == req.Id) with
              | none => none
              | some rd =>
                  some { prospective_name := rd.ProspectiveName
                         coordinates :=
                           if ¬ pyFalsyStr rd.Coordinate_TopLeft ∨
                              ¬ pyFalsyStr rd.Coordinate_BottomRight then
                             some (rd.Coordinate_TopLeft, rd.Coordinate_BottomRight)
                           else none
                         projection :=
                           ((match rd.ProjectionId with
                             | none => none
                             | some p => if p = 0 then none
                                         else db.projections.find?
                                           (fun row => row.Id == p)) : Option NamedRow).map
                             (fun p => p.Name)
                         other_specification := rd.OtherSpecification
                         other_format := rd.OtherFormat
                         intended_purpose := rd.IntendedPurpose
                         requirements_details := rd.RequirementsDetails
                         created_at := rd.CreatedAt }
            else none
      success_response "Request details fetched successfully"
        (some "تم جلب تفاصيل الطلب بنجاح")
        (some { id := req.Id
                number := req.RequestNumber
                status := status.map (fun s => (s.Name_Ar, s.Name))
                type := category.map (fun c => (c.Name_Ar, c.Name))
                user_email := user.bind (fun u => u.Email)
                subject := req.Subject
                body := req.Body
                complaint_screen := complaint_screen.map (fun c => (c.Name_Ar, c.Name))
                assigned_role_id := req.AssignedRoleId
                attach_path := req.AttachPath
                created_at := req.CreatedAt
                created_by := req.CreatedByUserID
                updated_at := req.UpdatedAt
                updated_by := req.UpdatedByUserID
                request_information := request_info.map (fun ri => (ri.Name_Ar, ri.Name))
                formats := formats.map (fun f => f.Name)
                replies := replies.map (fun rp =>
                  { id := rp.Id
                    subject := rp.Subject
                    body := rp.Body
                    attachment_path := rp.AttachmentPath
                    created_at := rp.CreatedAt
                    created_by := rp.CreatedByUserID
                    responder_user_id := rp.ResponderUserId })
                request_data := request_data })

/-- The success payload of `POST /admin/reply`. -/
structure ReplyOut where
  reply_id : Nat
  new_status : Nat
  request_id : Nat
  deriving Repr, DecidableEq

/-- The `Reply` row inserted by `admin_reply`. -/
def mkReply (request_id : Nat) (subject body : Option String)
    (attachFilename : Option String) (user : UserRow) (tsName : String)
    (now : Nat) (db : DB) : ReplyRow :=
  { Id := maxReplyId db + 1
    RequestId := request_id
    Subject := subject
    Body := body
    AttachmentPath := attachFilename.map
      (fun fn => "requests/reply/" ++ tsName ++ "_" ++ fn.replace " " "_")
    ResponderUserId := user.UserID
    CreatedAt := now
    CreatedByUserID := user.UserID
    IsDeleted := false }

/-- The in-place mutation `req.StatusId = status_id; req.UpdatedAt = utcnow();
req.UpdatedByUserID = user.UserID` performed by `admin_reply`. -/
def replyUpd (request_id status_id : Nat) (user : UserRow) (now : Nat)
    (r : RequestRow) : RequestRow :=
  if r.Id = request_id then
    { r with StatusId := some status_id
             UpdatedAt := some now
             UpdatedByUserID := some user.UserID }
  else r

/-- The guard `if not request_owner or not request_owner.Email`. -/
def owner_email_missing (o : Option UserRow) : Bool :=
  match o with
  | none => true
  | some owner => pyFalsyStr owner.Email

/-- `admin_reply`: insert a `Reply` row, unconditionally overwrite the parent
request's status to `status_id` and stamp its update-audit fields, commit,
then look up the request owner; when the owner or their e-mail is missing,
return the `USER_EMAIL_NOT_FOUND` error (the committed mutation stays). -/
def admin_reply (request_id status_id : Nat) (subject body : Option String)
    (attachFilename : Option String) (user : UserRow) (tsName : String)
    (now : Nat) (db : DB) : Resp ReplyOut × DB :=
  match db.requests.find? (fun r => r.Id == request_id) with
  | none =>
      (error_response ReplyOut "Request not found" (some "الطلب غير موجود")
        (some "REQUEST_NOT_FOUND"), db)
  | some req =>
      let new_reply : ReplyRow :=
        mkReply request_id subject body attachFilename user tsName now db
      let db' : DB :=
        { db with
            replies := db.replies ++ [new_reply]
            requests := db.requests.map (replyUpd request_id status_id user now) }
      let request_owner := req.UserId.bind
        (fun uid => db.users.find? (fun u => u.UserID == uid))
      if owner_email_missing request_owner then
        (error_response ReplyOut "Request owner email not found"
          (some "بريد صاحب الطلب غير موجود") (some "USER_EMAIL_NOT_FOUND"), db')
      else
        (success_response "Reply sent successfully" (some "تم إرسال الرد بنجاح")
          (some { reply_id := new_reply.Id
                  new_status := status_id
                  request_id := req.Id }), db')

/-! ### Generic helper lemmas -/

/-- Projection of the `data` field of an envelope. -/
def Resp.dataOf : Resp α → Option α
  | .success _ _ d => d
  | .error _ _ _ => none

/-- The `request_number` returned in a successful creation envelope. -/
def respNumber? (r : Resp CreateOut) : Option String :=
  (r.dataOf).map (fun d => d.request_number)

theorem find?_map_invar {α : Type} (f : α → α) (p : α → Bool)
    (hp : ∀ a, p (f a) = p a) :
    ∀ l : List α, (l.map f).find? p = (l.find? p).map f := by
  intro l
  induction l with
  | nil => rfl
  | cons a t ih =>
      cases h : p a with
      | true => simp [List.find?_cons, hp a, h]
      | false => simp [List.find?_cons, hp a, h, ih]

theorem forall₂_map_self {α : Type} (f : α → α) (R : α → α → Prop)
    (h : ∀ a, R a (f a)) : ∀ l : List α, List.Forall₂ R l (l.map f) := by
  intro l
  induction l with
  | nil => exact List.Forall₂.nil
  | cons a t ih => exact List.Forall₂.cons (h a) ih

theorem le_foldl_max (l : List RequestRow) :
    ∀ a : Nat, a ≤ l.foldl (fun m r => max m r.Id) a := by
  induction l with
  | nil => intro a; exact Nat.le_refl a
  | cons r t ih =>
      intro a
      exact Nat.le_trans (Nat.le_max_left a r.Id) (ih (max a r.Id))

theorem mem_le_foldl_max (l : List RequestRow) :
    ∀ (a : Nat) (r : RequestRow), r ∈ l → r.Id ≤ l.foldl (fun m x => max m x.Id) a := by
  induction l with
  | nil => intro a r h; cases h
  | cons x t ih =>
      intro a r h
      rcases List.mem_cons.mp h with h | h
      · subst h
        exact Nat.le_trans (Nat.le_max_right a r.Id) (le_foldl_max t (max a r.Id))
      · exact ih (max a x.Id) r h

/-- Every request id is at most `maxRequestId`. -/
theorem id_le_maxRequestId (db : DB) (r : RequestRow) (h : r ∈ db.requests) :
    r.Id ≤ maxRequestId db :=
  mem_le_foldl_max db.requests 0 r h

/-! ### C9: envelope helpers -/

/-- C9: when no Arabic message is supplied, `message_ar` falls back to the
English message, in both envelope helpers; the success envelope carries the
`data` payload and the error envelope carries the `error_code` instead. -/
theorem envelope_fallback_and_shape (α : Type) (message_en : String)
    (data : Option α) (error_code : Option String) :
    success_response message_en none data = Resp.success message_en message_en data
      ∧ error_response α message_en none error_code
          = Resp.error message_en message_en error_code :=
  ⟨rfl, rfl⟩

/-! ### C6: idempotence of role assignment -/

/-- C6: assigning a role to a request twice with the same role id produces
exactly the same response and database state as assigning it once (in
particular this holds for every existing request). -/
theorem assign_request_idempotent (request_id role_id : Nat) (db : DB) :
    assign_request request_id role_id
        (assign_request request_id role_id db).2
      = assign_request request_id role_id db := by
  unfold assign_request
  have hid : ∀ r : RequestRow,
      ((if r.Id = request_id then { r with AssignedRoleId := some role_id } else r).Id
        == request_id)
      = (r.Id == request_id) := by
    intro r
    by_cases h : r.Id = request_id <;> simp [h]
  cases hf : db.requests.find? (fun r => r.Id == request_id) with
  | none => simp [hf]
  | some req =>
      simp only [hf]
      rw [find?_map_invar _ _ hid db.requests, hf]
      simp only [Option.map_some']
      have h0 := List.find?_some hf
      have hreqId : req.Id = request_id := by simpa using h0
      simp only [hreqId, if_pos rfl]
      rw [List.map_map]
      have hff : ((fun r : RequestRow =>
          if r.Id = request_id then { r with AssignedRoleId := some role_id } else r) ∘
          (fun r : RequestRow =>
          if r.Id = request_id then { r with AssignedRoleId := some role_id } else r))
          = (fun r : RequestRow =>
          if r.Id = request_id then { r with AssignedRoleId := some role_id } else r) := by
        funext r
        by_cases h : r.Id = request_id <;> simp [Function.comp, h]
      rw [hff]
      simp

/-! ### Concrete fixtures used by witnesses -/

/-- An empty database. -/
def emptyDB : DB :=
  { requests := [], requestData := [], replies := [], reqInfoAssoc := [],
    reqFormatAssoc := [], users := [], statuses := [], categories := [],
    complaintScreens := [], requestInformation := [], projections := [],
    formats := [] }

/-- Sample admin user (role 1). -/
def adminUser : UserRow :=
  { UserID := 1, RoleID := 1, Email := some "admin@example.org", FirstName := "Admin" }

/-- Sample request owner without an e-mail address. -/
def ownerNoEmail : UserRow :=
  { UserID := 2, RoleID := 3, Email := none, FirstName := "Owner" }

/-- Sample request row owned by `ownerNoEmail`. -/
def req1 : RequestRow :=
  { Id := 1, UserId := some 2, CategoryId := 1, ComplaintScreenId := none,
    Subject := some "S", Body := some "B", AssignedRoleId := none,
    RequestNumber := "RQ-20250101-0001", StatusId := some 7, AttachPath := none,
    CreatedAt := 10, CreatedByUserID := none, UpdatedAt := none,
    UpdatedByUserID := none }

/-- Sample database holding `req1`, the two users and a few lookups. -/
def db1 : DB :=
  { requests := [req1], requestData := [], replies := [], reqInfoAssoc := [],
    reqFormatAssoc := [],
    users := [adminUser, ownerNoEmail],
    statuses := [{ Id := 7, Name := "Submitted", Name_Ar := "مقدم" },
                 { Id := 9, Name := "Closed", Name_Ar := "مغلق" }],
    categories := [{ Id := 1, Name := "Complaint", Name_Ar := "شكوى" },
                   { Id := 8, Name := "Data Request", Name_Ar := "طلب بيانات" }],
    complaintScreens := [], requestInformation := [], projections := [],
    formats := [] }

/-! ### C10: role assignment only changes `AssignedRoleId` -/

/-- C10: for an existing request, `assign_request` rewrites the request list
row-by-row changing nothing but `AssignedRoleId` (rows whose id differs are
literally unchanged; the matching row gets the new role), and every other
table of the database is untouched. -/
theorem assign_request_frame (request_id role_id : Nat) (db : DB)
    (req : RequestRow)
    (h : db.requests.find? (fun r => r.Id == request_id) = some req) :
    List.Forall₂ (fun a b : RequestRow =>
        b = { a with AssignedRoleId := b.AssignedRoleId }
        ∧ (a.Id ≠ request_id → b = a)
        ∧ (a.Id = request_id → b.AssignedRoleId = some role_id))
      db.requests (assign_request request_id role_id db).2.requests
    ∧ (assign_request request_id role_id db).2.requestData = db.requestData
    ∧ (assign_request request_id role_id db).2.replies = db.replies
    ∧ (assign_request request_id role_id db).2.reqInfoAssoc = db.reqInfoAssoc
    ∧ (assign_request request_id role_id db).2.reqFormatAssoc = db.reqFormatAssoc
    ∧ (assign_request request_id role_id db).2.users = db.users
    ∧ (assign_request request_id role_id db).2.statuses = db.statuses
    ∧ (assign_request request_id role_id db).2.categories = db.categories
    ∧ (assign_request request_id role_id db).2.complaintScreens = db.complaintScreens
    ∧ (assign_request request_id role_id db).2.requestInformation
        = db.requestInformation
    ∧ (assign_request request_id role_id db).2.projections = db.projections
    ∧ (assign_request request_id role_id db).2.formats = db.formats := by
  unfold assign_request
  rw [h]
  refine ⟨?_, rfl, rfl, rfl, rfl, rfl, rfl, rfl, rfl, rfl, rfl, rfl⟩
  apply forall₂_map_self
  intro a
  by_cases hc : a.Id = request_id
  · simp [hc]
  · simp [hc]

/-- Witness for C10 at a concrete database. -/
theorem assign_request_frame_witness :
    db1.requests.find? (fun r => r.Id == 1) = some req1
    ∧ List.Forall₂ (fun a b : RequestRow =>
        b = { a with AssignedRoleId := b.AssignedRoleId }
        ∧ (a.Id ≠ 1 → b = a)
        ∧ (a.Id = 1 → b.AssignedRoleId = some 5))
      db1.requests (assign_request 1 5 db1).2.requests :=
  ⟨by decide, (assign_request_frame 1 5 db1 req1 (by decide)).1⟩

/-! ### C2: projection validation and the `RequestData` row -/

/-- Creation input with a non-data-request category (1) and a `ProjectionId`
that does not resolve (no `Projection` row in `db1`). -/
def badProjInp : CreateInput :=
  { CategoryId := 1, ComplaintScreenId := none, Subject := none, Body := none,
    ProspectiveName := none, Coordinate_TopLeft := none,
    Coordinate_BottomRight := none, ProjectionId := some 5,
    OtherSpecification := none, OtherFormat := none, IntendedPurpose := none,
    RequirementsDetails := none, RequestInformationIds := none,
    FormatIds := none, attachFilename := none, user := adminUser,
    date := "20250101", tsName := "20250101000000", now := 0 }

/-- The same input with the data-request category (8). -/
def badProjInp8 : CreateInput := { badProjInp with CategoryId := 8 }

/-- The same input with no `ProjectionId` (passes validation). -/
def goodProjInp : CreateInput := { badProjInp with ProjectionId := none }

/-- Counterexample to C2: a creation whose category is NOT the data-request
category (it is 1) and whose `ProjectionId` does not resolve is NOT ignored:
the operation fails with the invalid-projection error, contradicting "for
every input whose category is not data-request, the ProjectionId is ignored
entirely (the operation does not fail on it)". -/
theorem create_request_projection_not_ignored :
    badProjInp.CategoryId ≠ 8
    ∧ (create_request badProjInp db1).1
        = Resp.error "Invalid ProjectionId" "معرف الإسقاط غير صالح" none
    ∧ (create_request badProjInp db1).1.isSuccess = false := by
  refine ⟨by decide, by decide, by decide⟩

/-- C2 (amended): the projection check is independent of the category: ANY
creation whose normalized `ProjectionId` fails to resolve returns the
invalid-projection error and leaves the database completely unchanged (no
Request, RequestData or association rows); and when the category is not the
data-request category (8), no `RequestData` row is ever created. -/
theorem create_request_projection_amended :
    (∀ (inp : CreateInput) (db : DB),
        projectionInvalid db (normalizeProjection inp.ProjectionId) = true →
        (create_request inp db).1
            = error_response CreateOut "Invalid ProjectionId"
                (some "معرف الإسقاط غير صالح") none
          ∧ (create_request inp db).2 = db)
    ∧ (∀ (inp : CreateInput) (db : DB), inp.CategoryId ≠ 8 →
        (create_request inp db).2.requestData = db.requestData) := by
  constructor
  · intro inp db h
    unfold create_request
    simp [h]
  · intro inp db h
    unfold create_request
    by_cases hp : projectionInvalid db (normalizeProjection inp.ProjectionId)
    · simp [hp]
    · simp [hp, h]

/-- Witness for C2 (amended) at concrete inputs. -/
theorem create_request_projection_amended_witness :
    projectionInvalid db1 (normalizeProjection badProjInp8.ProjectionId) = true
    ∧ (create_request badProjInp8 db1).2 = db1
    ∧ goodProjInp.CategoryId ≠ 8
    ∧ (create_request goodProjInp db1).2.requestData = db1.requestData :=
  ⟨by decide,
   (create_request_projection_amended.1 badProjInp8 db1 (by decide)).2,
   by decide,
   create_request_projection_amended.2 goodProjInp db1 (by decide)⟩

/-! ### Shared facts about `admin_reply` -/

/-- When the request exists, `admin_reply` (whether or not the owner e-mail is
found) commits exactly: the appended `Reply` row and the in-place status /
audit update of the parent request. -/
theorem admin_reply_state (request_id status_id : Nat)
    (subject body : Option String) (attachFilename : Option String)
    (user : UserRow) (tsName : String) (now : Nat) (db : DB) (req : RequestRow)
    (h : db.requests.find? (fun r => r.Id == request_id) = some req) :
    (admin_reply request_id status_id subject body attachFilename user tsName now db).2
      = { db with
            replies := db.replies ++
              [mkReply request_id subject body attachFilename user tsName now db]
            requests := db.requests.map (replyUpd request_id status_id user now) } := by
  unfold admin_reply
  rw [h]
  by_cases hm : owner_email_missing (req.UserId.bind
      (fun uid => db.users.find? (fun u => u.UserID == uid))) <;>
    simp [hm]

/-- `replyUpd` preserves the row id. -/
theorem replyUpd_id (request_id status_id : Nat) (user : UserRow) (now : Nat)
    (r : RequestRow) :
    ((replyUpd request_id status_id user now r).Id == request_id)
      = (r.Id == request_id) := by
  unfold replyUpd
  by_cases hc : r.Id = request_id <;> simp [hc]

/-- After a reply to an existing request, the detail payload shows the new
status resolved from the `Status` lookup, the update-audit stamps, and the
appended reply. -/
theorem admin_reply_details (request_id status_id : Nat)
    (subject body : Option String) (attachFilename : Option String)
    (user : UserRow) (tsName : String) (now : Nat) (db : DB) (req : RequestRow)
    (h : db.requests.find? (fun r => r.Id == request_id) = some req) :
    ∃ det : Details,
      (get_request_details request_id
          (admin_reply request_id status_id subject body attachFilename user
            tsName now db).2).dataOf = some det
      ∧ det.status = (lookupIfTruthy db.statuses (some status_id)).map
          (fun s => (s.Name_Ar, s.Name))
      ∧ det.updated_at = some now
      ∧ det.updated_by = some user.UserID
      ∧ det.replies
          = (db.replies.filter
                (fun rp => rp.RequestId == request_id && rp.IsDeleted == false)).map
                (fun rp =>
                  { id := rp.Id, subject := rp.Subject, body := rp.Body,
                    attachment_path := rp.AttachmentPath,
                    created_at := rp.CreatedAt,
                    created_by := rp.CreatedByUserID,
                    responder_user_id := rp.ResponderUserId })
              ++ [{ id := maxReplyId db + 1, subject := subject, body := body,
                    attachment_path := attachFilename.map (fun fn =>
                      "requests/reply/" ++ tsName ++ "_" ++ fn.replace " " "_"),
                    created_at := now, created_by := user.UserID,
                    responder_user_id := user.UserID }] := by
  have hid : req.Id = request_id := by simpa using List.find?_some h
  rw [admin_reply_state request_id status_id subject body attachFilename user
    tsName now db req h]
  unfold get_request_details
  have hfind : (db.requests.map (replyUpd request_id status_id user now)).find?
      (fun r => r.Id == request_id)
      = some (replyUpd request_id status_id user now req) := by
    rw [find?_map_invar _ _ (replyUpd_id request_id status_id user now), h]
    rfl
  simp only [hfind]
  unfold replyUpd
  simp only [hid, if_pos rfl]
  refine ⟨_, rfl, ?_, rfl, rfl, ?_⟩
  · rfl
  · simp only [List.filter_append, List.map_append, mkReply, hid]
    simp

/-! ### C3: replies set any status, no transition is blocked -/

/-- Sample request owned by `adminUser` (who has an e-mail). -/
def req2 : RequestRow :=
  { req1 with Id := 2, UserId := some 1, RequestNumber := "RQ-20250101-0002" }

/-- `db1` extended with `req2`. -/
def db2 : DB := { db1 with requests := [req1, req2] }

/-- C3: whatever the prior status of an existing request (the database is
arbitrary), a successful admin reply targeting status `status_id` leaves the
request's stored status equal to `status_id`, and a subsequent detail
retrieval reports exactly that status (resolved against the Status lookup);
no pair of statuses is ever blocked, since `status_id` and the prior state
are universally quantified. -/
theorem admin_reply_sets_status (request_id status_id : Nat)
    (subject body : Option String) (attachFilename : Option String)
    (user : UserRow) (tsName : String) (now : Nat) (db : DB)
    (hs : (admin_reply request_id status_id subject body attachFilename user
        tsName now db).1.isSuccess = true) :
    ((admin_reply request_id status_id subject body attachFilename user tsName
        now db).2.requests.find? (fun r => r.Id == request_id)).map
        (fun r => r.StatusId) = some (some status_id)
    ∧ (get_request_details request_id
        (admin_reply request_id status_id subject body attachFilename user
          tsName now db).2).dataOf.map (fun det => det.status)
      = some ((lookupIfTruthy db.statuses (some status_id)).map
          (fun s => (s.Name_Ar, s.Name))) := by
  cases hf : db.requests.find? (fun r => r.Id == request_id) with
  | none =>
      exfalso
      unfold admin_reply at hs
      rw [hf] at hs
      simp [error_response, Resp.isSuccess] at hs
  | some req =>
      have hid : req.Id = request_id := by simpa using List.find?_some hf
      constructor
      · rw [admin_reply_state request_id status_id subject body attachFilename
          user tsName now db req hf]
        show ((db.requests.map (replyUpd request_id status_id user now)).find?
          (fun r => r.Id == request_id)).map (fun r => r.StatusId) = some (some status_id)
        rw [find?_map_invar _ _ (replyUpd_id request_id status_id user now), hf]
        unfold replyUpd
        simp [hid]
      · obtain ⟨det, h1, h2, _, _, _⟩ := admin_reply_details request_id status_id
          subject body attachFilename user tsName now db req hf
        rw [h1, Option.map_some', h2]

/-- Witness for C3: replying to `req2` (prior status 7) with status 9
succeeds and the stored and reported status become 9. -/
theorem admin_reply_sets_status_witness :
    (admin_reply 2 9 none none none adminUser "ts" 99 db2).1.isSuccess = true
    ∧ ((admin_reply 2 9 none none none adminUser "ts" 99
        db2).2.requests.find? (fun r => r.Id == 2)).map (fun r => r.StatusId)
      = some (some 9)
    ∧ (get_request_details 2
        (admin_reply 2 9 none none none adminUser "ts" 99 db2).2).dataOf.map
        (fun det => det.status)
      = some ((lookupIfTruthy db2.statuses (some 9)).map
          (fun s => (s.Name_Ar, s.Name))) :=
  ⟨by decide,
   (admin_reply_sets_status 2 9 none none none adminUser "ts" 99 db2 (by decide)).1,
   (admin_reply_sets_status 2 9 none none none adminUser "ts" 99 db2 (by decide)).2⟩

/-! ### C4: missing owner e-mail is a partial-success error -/

/-- C4: when the owner of an existing request is absent or has no e-mail,
`admin_reply` returns the `USER_EMAIL_NOT_FOUND` error envelope, yet the
`Reply` row, the status change and the update-audit stamps are committed and
visible to a subsequent detail retrieval. -/
theorem admin_reply_owner_email_missing (request_id status_id : Nat)
    (subject body : Option String) (attachFilename : Option String)
    (user : UserRow) (tsName : String) (now : Nat) (db : DB) (req : RequestRow)
    (hf : db.requests.find? (fun r => r.Id == request_id) = some req)
    (hm : owner_email_missing (req.UserId.bind
        (fun uid => db.users.find? (fun u => u.UserID == uid))) = true) :
    (admin_reply request_id status_id subject body attachFilename user tsName
        now db).1
      = Resp.error "Request owner email not found" "بريد صاحب الطلب غير موجود"
          (some "USER_EMAIL_NOT_FOUND")
    ∧ (admin_reply request_id status_id subject body attachFilename user tsName
        now db).2.replies
      = db.replies ++ [mkReply request_id subject body attachFilename user tsName now db]
    ∧ ((admin_reply request_id status_id subject body attachFilename user
        tsName now db).2.requests.find? (fun r => r.Id == request_id)).map
        (fun r => (r.StatusId, r.UpdatedAt, r.UpdatedByUserID))
      = some (some status_id, some now, some user.UserID)
    ∧ (get_request_details request_id
        (admin_reply request_id status_id subject body attachFilename user
          tsName now db).2).dataOf.map
        (fun det => (det.status, det.updated_at, det.updated_by, det.replies))
      = some ((lookupIfTruthy db.statuses (some status_id)).map
            (fun s => (s.Name_Ar, s.Name)), some now, some user.UserID,
          (db.replies.filter
              (fun rp => rp.RequestId == request_id && rp.IsDeleted == false)).map
              (fun rp =>
                { id := rp.Id, subject := rp.Subject, body := rp.Body,
                  attachment_path := rp.AttachmentPath,
                  created_at := rp.CreatedAt,
                  created_by := rp.CreatedByUserID,
                  responder_user_id := rp.ResponderUserId })
            ++ [{ id := maxReplyId db + 1, subject := subject, body := body,
                  attachment_path := attachFilename.map (fun fn =>
                    "requests/reply/" ++ tsName ++ "_" ++ fn.replace " " "_"),
                  created_at := now, created_by := user.UserID,
                  responder_user_id := user.UserID }]) := by
  have hid : req.Id = request_id := by simpa using List.find?_some hf
  refine ⟨?_, ?_, ?_, ?_⟩
  · unfold admin_reply
    rw [hf]
    simp [hm, error_response, orElseStr]
  · rw [admin_reply_state request_id status_id subject body attachFilename
      user tsName now db req hf]
  · rw [admin_reply_state request_id status_id subject body attachFilename
      user tsName now db req hf]
    show ((db.requests.map (replyUpd request_id status_id user now)).find?
      (fun r => r.Id == request_id)).map
      (fun r => (r.StatusId, r.UpdatedAt, r.UpdatedByUserID))
      = some (some status_id, some now, some user.UserID)
    rw [find?_map_invar _ _ (replyUpd_id request_id status_id user now), hf]
    unfold replyUpd
    simp [hid]
  · obtain ⟨det, h1, h2, h3, h4, h5⟩ := admin_reply_details request_id
      status_id subject body attachFilename user tsName now db req hf
    rw [h1, Option.map_some', h2, h3, h4, h5]

/-- Witness for C4: replying to `req1` (owned by the e-mail-less user 2)
returns the error envelope while the reply row is persisted. -/
theorem admin_reply_owner_email_missing_witness :
    db1.requests.find? (fun r => r.Id == 1) = some req1
    ∧ owner_email_missing (req1.UserId.bind
        (fun uid => db1.users.find? (fun u => u.UserID == uid))) = true
    ∧ (admin_reply 1 9 (some "re") none none adminUser "ts" 99 db1).1
      = Resp.error "Request owner email not found" "بريد صاحب الطلب غير موجود"
          (some "USER_EMAIL_NOT_FOUND")
    ∧ (admin_reply 1 9 (some "re") none none adminUser "ts" 99 db1).2.replies
      = db1.replies ++ [mkReply 1 (some "re") none none adminUser "ts" 99 db1] :=
  ⟨by decide, by decide,
   (admin_reply_owner_email_missing 1 9 (some "re") none none adminUser "ts" 99
     db1 req1 (by decide) (by decide)).1,
   (admin_reply_owner_email_missing 1 9 (some "re") none none adminUser "ts" 99
     db1 req1 (by decide) (by decide)).2.1⟩

/-! ### Shared facts about successful request creation -/

theorem find?_append_none {α : Type} (p : α → Bool) (l1 l2 : List α)
    (h : l1.find? p = none) : (l1 ++ l2).find? p = l2.find? p := by
  induction l1 with
  | nil => simp
  | cons a t ih =>
      cases hpa : p a with
      | true => rw [List.find?_cons_of_pos t hpa] at h; cases h
      | false =>
          have hpa' : ¬ p a = true := by simp [hpa]
          rw [List.find?_cons_of_neg t hpa'] at h
          rw [List.cons_append, List.find?_cons_of_neg _ hpa']
          exact ih h

/-- On the success path, `create_request` appends exactly the new request
row, the optional `RequestData` row, and one association row per parsed tag
id, and touches nothing else. -/
theorem create_request_success_state (inp : CreateInput) (db : DB)
    (hs : (create_request inp db).1.isSuccess = true) :
    (create_request inp db).2.requests = db.requests ++ [newRequestRow inp db]
    ∧ (create_request inp db).2.reqInfoAssoc
      = db.reqInfoAssoc ++ (parse_list inp.RequestInformationIds).map
          (fun i => (maxRequestId db + 1, i))
    ∧ (create_request inp db).2.reqFormatAssoc
      = db.reqFormatAssoc ++ (parse_list inp.FormatIds).map
          (fun i => (maxRequestId db + 1, i))
    ∧ (create_request inp db).2.requestInformation = db.requestInformation
    ∧ (create_request inp db).2.formats = db.formats
    ∧ (create_request inp db).2.statuses = db.statuses
    ∧ (create_request inp db).2.users = db.users
    ∧ (create_request inp db).2.replies = db.replies := by
  by_cases hp : projectionInvalid db (normalizeProjection inp.ProjectionId)
  · exfalso
    unfold create_request at hs
    simp [hp, error_response, Resp.isSuccess] at hs
  · unfold create_request
    by_cases hc : inp.CategoryId = 8 <;> simp [hp, hc]

/-! ### C5: tag-id parsing and association round-trip -/

/-- C5: inputs whose information/format id lists parse (dropping non-numeric
tokens, keeping duplicates) to `[1,2,3]` and `[4,5]` insert exactly those
association rows for the new request, and the detail read-back lists exactly
3 and 2 association entries (given the ids resolve in the lookup tables and
existing association rows only reference existing requests); in general every
successful creation inserts exactly one association row per surviving token. -/
theorem create_request_associations (inp : CreateInput) (db : DB)
    (h1 : parse_list inp.RequestInformationIds = [1, 2, 3])
    (h2 : parse_list inp.FormatIds = [4, 5])
    (hs : (create_request inp db).1.isSuccess = true)
    (hr1 : (db.requestInformation.find? (fun ri => ri.Id == 1)).isSome = true)
    (hr2 : (db.requestInformation.find? (fun ri => ri.Id == 2)).isSome = true)
    (hr3 : (db.requestInformation.find? (fun ri => ri.Id == 3)).isSome = true)
    (hf4 : (db.formats.find? (fun f => f.Id == 4)).isSome = true)
    (hf5 : (db.formats.find? (fun f => f.Id == 5)).isSome = true)
    (hIA : ∀ p ∈ db.reqInfoAssoc, p.1 ≤ maxRequestId db)
    (hFA : ∀ p ∈ db.reqFormatAssoc, p.1 ≤ maxRequestId db) :
    (create_request inp db).2.reqInfoAssoc
      = db.reqInfoAssoc ++ [(maxRequestId db + 1, 1), (maxRequestId db + 1, 2),
          (maxRequestId db + 1, 3)]
    ∧ (create_request inp db).2.reqFormatAssoc
      = db.reqFormatAssoc ++ [(maxRequestId db + 1, 4), (maxRequestId db + 1, 5)]
    ∧ (get_request_details (maxRequestId db + 1)
        (create_request inp db).2).dataOf.map
        (fun det => (det.request_information.length, det.formats.length))
      = some (3, 2)
    ∧ (∀ (inp' : CreateInput) (db' : DB),
        (create_request inp' db').1.isSuccess = true →
        (create_request inp' db').2.reqInfoAssoc.length
            = db'.reqInfoAssoc.length + (parse_list inp'.RequestInformationIds).length
          ∧ (create_request inp' db').2.reqFormatAssoc.length
            = db'.reqFormatAssoc.length + (parse_list inp'.FormatIds).length) := by
  obtain ⟨hreq, hia, hfa, hri, hfm, _, _, _⟩ :=
    create_request_success_state inp db hs
  have hA : (create_request inp db).2.reqInfoAssoc
      = db.reqInfoAssoc ++ [(maxRequestId db + 1, 1), (maxRequestId db + 1, 2),
          (maxRequestId db + 1, 3)] := by
    rw [hia, h1]
    rfl
  have hB : (create_request inp db).2.reqFormatAssoc
      = db.reqFormatAssoc ++ [(maxRequestId db + 1, 4), (maxRequestId db + 1, 5)] := by
    rw [hfa, h2]
    rfl
  refine ⟨hA, hB, ?_, ?_⟩
  · unfold get_request_details
    have hnone : db.requests.find? (fun r => r.Id == maxRequestId db + 1) = none := by
      rw [List.find?_eq_none]
      intro r hr
      have := id_le_maxRequestId db r hr
      simp
      omega
    have hfind : (create_request inp db).2.requests.find?
        (fun r => r.Id == maxRequestId db + 1) = some (newRequestRow inp db) := by
      rw [hreq, find?_append_none _ _ _ hnone]
      have : ((newRequestRow inp db).Id == maxRequestId db + 1) = true := by
        simp [newRequestRow]
      simp [List.find?_cons, this]
    simp only [hfind]
    obtain ⟨r1, he1⟩ := Option.isSome_iff_exists.mp hr1
    obtain ⟨r2, he2⟩ := Option.isSome_iff_exists.mp hr2
    obtain ⟨r3, he3⟩ := Option.isSome_iff_exists.mp hr3
    obtain ⟨f4, he4⟩ := Option.isSome_iff_exists.mp hf4
    obtain ⟨f5, he5⟩ := Option.isSome_iff_exists.mp hf5
    have hfiltIA : db.reqInfoAssoc.filter
        (fun a => a.1 == maxRequestId db + 1) = [] := by
      rw [List.filter_eq_nil_iff]
      intro p hp
      have := hIA p hp
      simp
      omega
    have hfiltFA : db.reqFormatAssoc.filter
        (fun a => a.1 == maxRequestId db + 1) = [] := by
      rw [List.filter_eq_nil_iff]
      intro p hp
      have := hFA p hp
      simp
      omega
    simp only [success_response, Resp.dataOf]
    rw [hA, hB, hri, hfm]
    simp [newRequestRow, List.filter_append, hfiltIA, hfiltFA,
      List.filterMap_cons, he1, he2, he3, he4, he5]
  · intro inp' db' hs'
    obtain ⟨_, hia', hfa', _, _, _, _, _⟩ :=
      create_request_success_state inp' db' hs'
    rw [hia', hfa']
    simp

/-- Creation input carrying tag id lists, including a malformed token. -/
def tagInp : CreateInput :=
  { badProjInp with
    ProjectionId := none
    RequestInformationIds := some "1,2,x, 3"
    FormatIds := some "4,5" }

/-- `db1` with resolvable information/format lookup rows 1..3 and 4..5. -/
def tagDB : DB :=
  { db1 with
    requestInformation := [{ Id := 1, Name := "RI1", Name_Ar := "م1" },
                           { Id := 2, Name := "RI2", Name_Ar := "م2" },
                           { Id := 3, Name := "RI3", Name_Ar := "م3" }]
    formats := [{ Id := 4, Name := "F4" }, { Id := 5, Name := "F5" }] }

/-- Witness for C5 at a concrete creation (the malformed token `x` is
dropped, the surviving tokens produce one association row each, and read-back
reports 3 and 2 entries). -/
theorem create_request_associations_witness :
    parse_list tagInp.RequestInformationIds = [1, 2, 3]
    ∧ parse_list tagInp.FormatIds = [4, 5]
    ∧ (create_request tagInp tagDB).1.isSuccess = true
    ∧ (create_request tagInp tagDB).2.reqInfoAssoc
      = tagDB.reqInfoAssoc ++ [(2, 1), (2, 2), (2, 3)]
    ∧ (get_request_details 2 (create_request tagInp tagDB).2).dataOf.map
        (fun det => (det.request_information.length, det.formats.length))
      = some (3, 2) :=
  ⟨by decide, by decide, by decide,
   (create_request_associations tagInp tagDB (by decide) (by decide) (by decide)
     (by decide) (by decide) (by decide) (by decide) (by decide) (by decide)
     (by decide)).1,
   (create_request_associations tagInp tagDB (by decide) (by decide) (by decide)
     (by decide) (by decide) (by decide) (by decide) (by decide) (by decide)
     (by decide)).2.2.1⟩

/-! ### C7: error envelope vs transport-level role-gate failures -/

/-- Counterexample to C7: a role-gate failure is NOT delivered in the uniform
envelope: `require_admin` raises a transport-level `HTTPException(403)` (an
`Except.error`, never an `ok` envelope value), so callers cannot inspect
`success`/`error_code` for it. -/
theorem require_admin_not_envelope :
    require_admin ownerNoEmail
        = Except.error { status := 403, detail := "Admins only" }
    ∧ (require_admin ownerNoEmail).isOk = false := by
  refine ⟨rfl, rfl⟩

/-- C7 (amended): the workflow errors of the taxonomy (`NotFound` on
assignment, details and reply; `InvalidReference` on creation;
`OwnerEmailMissing` on reply) are returned as the uniform
`{success: false, message, message_ar, error_code}` envelope, but the
role-gate failures (`Unauthorized`/`Forbidden`) are raised as transport-level
`HTTPException`s (401/403), not as the envelope. -/
theorem error_envelope_amended :
    (∀ (request_id role_id : Nat) (db : DB),
        db.requests.find? (fun r => r.Id == request_id) = none →
        assign_request request_id role_id db
          = (Resp.error "Request not found" "الطلب غير موجود"
              (some "REQUEST_NOT_FOUND"), db))
    ∧ (∀ (request_id : Nat) (db : DB),
        db.requests.find? (fun r => r.Id == request_id) = none →
        get_request_details request_id db
          = Resp.error "Request not found" "الطلب غير موجود"
              (some "REQUEST_NOT_FOUND"))
    ∧ (∀ (request_id status_id : Nat) (subject body attachFilename : Option String)
        (user : UserRow) (tsName : String) (now : Nat) (db : DB),
        db.requests.find? (fun r => r.Id == request_id) = none →
        admin_reply request_id status_id subject body attachFilename user
            tsName now db
          = (Resp.error "Request not found" "الطلب غير موجود"
              (some "REQUEST_NOT_FOUND"), db))
    ∧ (∀ (inp : CreateInput) (db : DB),
        projectionInvalid db (normalizeProjection inp.ProjectionId) = true →
        (create_request inp db).1
          = Resp.error "Invalid ProjectionId" "معرف الإسقاط غير صالح" none)
    ∧ (∀ (request_id status_id : Nat) (subject body attachFilename : Option String)
        (user : UserRow) (tsName : String) (now : Nat) (db : DB)
        (req : RequestRow),
        db.requests.find? (fun r => r.Id == request_id) = some req →
        owner_email_missing (req.UserId.bind
            (fun uid => db.users.find? (fun u => u.UserID == uid))) = true →
        (admin_reply request_id status_id subject body attachFilename user
            tsName now db).1
          = Resp.error "Request owner email not found" "بريد صاحب الطلب غير موجود"
              (some "USER_EMAIL_NOT_FOUND"))
    ∧ (∀ u : UserRow, u.RoleID ≠ 1 →
        require_admin u = Except.error { status := 403, detail := "Admins only" })
    ∧ (∀ (uid : Nat) (db : DB), db.users.find? (fun x => x.UserID == uid) = none →
        get_current_user uid db
          = Except.error { status := 401, detail := "User not found" }) := by
  refine ⟨?_, ?_, ?_, ?_, ?_, ?_, ?_⟩
  · intro request_id role_id db h
    unfold assign_request
    rw [h]
    simp [error_response, orElseStr]
  · intro request_id db h
    unfold get_request_details
    rw [h]
    simp [error_response, orElseStr]
  · intro request_id status_id subject body attachFilename user tsName now db h
    unfold admin_reply
    rw [h]
    simp [error_response, orElseStr]
  · intro inp db h
    unfold create_request
    simp [h, error_response, orElseStr]
  · intro request_id status_id subject body attachFilename user tsName now db req hf hm
    unfold admin_reply
    rw [hf]
    simp [hm, error_response, orElseStr]
  · intro u h
    unfold require_admin
    simp [h]
  · intro uid db h
    unfold get_current_user
    rw [h]

/-- Witness for C7 (amended) at concrete inputs: a `NotFound` delivered in
the envelope and a role-gate failure raised as an `HTTPException`. -/
theorem error_envelope_amended_witness :
    db1.requests.find? (fun r => r.Id == 99) = none
    ∧ assign_request 99 5 db1
      = (Resp.error "Request not found" "الطلب غير موجود"
          (some "REQUEST_NOT_FOUND"), db1)
    ∧ ownerNoEmail.RoleID ≠ 1
    ∧ require_admin ownerNoEmail
      = Except.error { status := 403, detail := "Admins only" } :=
  ⟨by decide,
   error_envelope_amended.1 99 5 db1 (by decide),
   by decide,
   error_envelope_amended.2.2.2.2.2.1 ownerNoEmail (by decide)⟩

/-! ### C8: paginated, ordered, read-only admin listing -/

/-- The page of enriched rows returned by `list_requests`. -/
def pageRows (db : DB) (page limit : Nat) : List ListRow :=
  (((List.insertionSort createdGE db.requests).drop ((page - 1) * limit)).take
    limit).map (enrichRow db)

/-- C8: the endpoint rejects `page < 1` and `limit` outside `1..200` with a
transport-level 422; for accepted parameters it is read-only and returns the
requested page of requests ordered by creation time descending, each row the
enrichment (resolved status, category, user e-mail) of a stored request. -/
theorem list_requests_spec :
    (∀ (db : DB) (page limit : Int),
        (page < 1 ∨ limit < 1 ∨ 200 < limit) →
        list_requests_endpoint page limit db
          = Except.error { status := 422, detail := "Unprocessable Entity" })
    ∧ (∀ (db : DB) (page limit : Int),
        1 ≤ page → 1 ≤ limit → limit ≤ 200 →
        list_requests_endpoint page limit db
            = Except.ok (list_requests page.toNat limit.toNat db)
          ∧ (list_requests page.toNat limit.toNat db).2 = db
          ∧ (list_requests page.toNat limit.toNat db).1
            = success_response "Requests fetched successfully"
                (some "تم جلب الطلبات بنجاح")
                (some { page := page.toNat, limit := limit.toNat,
                        count := (pageRows db page.toNat limit.toNat).length,
                        total := db.requests.length,
                        requests := pageRows db page.toNat limit.toNat })
          ∧ (pageRows db page.toNat limit.toNat).length ≤ limit.toNat
          ∧ List.Pairwise (fun a b => b.created_at ≤ a.created_at)
              (pageRows db page.toNat limit.toNat)
          ∧ ∀ row ∈ pageRows db page.toNat limit.toNat,
              ∃ req ∈ db.requests, row = enrichRow db req) := by
  constructor
  · intro db page limit h
    unfold list_requests_endpoint
    rw [if_pos h]
  · intro db page limit h1 h2 h3
    have hv : ¬ (page < 1 ∨ limit < 1 ∨ 200 < limit) := by omega
    refine ⟨by unfold list_requests_endpoint; rw [if_neg hv], rfl, rfl, ?_, ?_, ?_⟩
    · unfold pageRows
      rw [List.length_map]
      calc (((List.insertionSort createdGE db.requests).drop
              ((page.toNat - 1) * limit.toNat)).take limit.toNat).length
          = min limit.toNat ((List.insertionSort createdGE
              db.requests).drop ((page.toNat - 1) * limit.toNat)).length :=
            List.length_take ..
        _ ≤ limit.toNat := Nat.min_le_left ..
    · unfold pageRows
      rw [List.pairwise_map]
      have hsorted : List.Pairwise createdGE
          (List.insertionSort createdGE db.requests) :=
        List.sorted_insertionSort createdGE db.requests
      have hsub : List.Sublist
          (((List.insertionSort createdGE db.requests).drop
            ((page.toNat - 1) * limit.toNat)).take limit.toNat)
          (List.insertionSort createdGE db.requests) :=
        List.Sublist.trans (List.take_sublist ..) (List.drop_sublist ..)
      exact ((hsorted.sublist hsub).imp (fun h => h))
    · intro row hrow
      unfold pageRows at hrow
      obtain ⟨req, hreq, hrw⟩ := List.mem_map.mp hrow
      refine ⟨req, ?_, hrw.symm⟩
      have hsub2 : List.Sublist
          (((List.insertionSort createdGE db.requests).drop
            ((page.toNat - 1) * limit.toNat)).take limit.toNat)
          (List.insertionSort createdGE db.requests) :=
        List.Sublist.trans (List.take_sublist ..) (List.drop_sublist ..)
      have hmem : req ∈ List.insertionSort createdGE db.requests :=
        hsub2.subset hreq
      exact (List.perm_insertionSort createdGE db.requests).subset hmem

/-- Witness for C8 at a concrete database and page parameters. -/
theorem list_requests_spec_witness :
    (1 : Int) ≤ 1 ∧ (1 : Int) ≤ 25 ∧ (25 : Int) ≤ 200
    ∧ list_requests_endpoint 1 25 db2
      = Except.ok (list_requests (1 : Int).toNat (25 : Int).toNat db2)
    ∧ (list_requests (1 : Int).toNat (25 : Int).toNat db2).2 = db2
    ∧ (pageRows db2 (1 : Int).toNat (25 : Int).toNat).length ≤ (25 : Int).toNat :=
  ⟨by decide, by decide, by decide,
   (list_requests_spec.2 db2 1 25 (by decide) (by decide) (by decide)).1,
   (list_requests_spec.2 db2 1 25 (by decide) (by decide) (by decide)).2.1,
   (list_requests_spec.2 db2 1 25 (by decide) (by decide) (by decide)).2.2.2.1⟩

/-! ### C1: request-number generation and same-date uniqueness -/

/-- Sequential execution of a list of creation requests against an initial
database: the list of response envelopes, in order. -/
def runTrace (db : DB) : List CreateInput → List (Resp CreateOut)
  | [] => []
  | inp :: rest =>
      (create_request inp db).1 :: runTrace (create_request inp db).2 rest

theorem seq_if_isEmpty (db : DB) :
    (if db.requests.isEmpty then 1 else maxRequestId db + 1)
      = maxRequestId db + 1 := by
  cases h : db.requests with
  | nil => simp [maxRequestId, h]
  | cons a t => simp [h]

/-- A successful creation returns the number formatted from
`maxRequestId db + 1`. -/
theorem create_request_number_of_success (inp : CreateInput) (db : DB)
    (hs : (create_request inp db).1.isSuccess = true) :
    respNumber? (create_request inp db).1
      = some (rqNumber inp.date (maxRequestId db + 1)) := by
  by_cases hp : projectionInvalid db (normalizeProjection inp.ProjectionId)
  · exfalso
    unfold create_request at hs
    simp [hp, error_response, Resp.isSuccess] at hs
  · unfold create_request
    simp only [hp, Bool.false_eq_true, if_false, respNumber?, Resp.dataOf,
      success_response, Option.map_some']
    cases h : db.requests with
    | nil => simp [h, maxRequestId]
    | cons x t => simp [h]

theorem maxRequestId_after_success (inp : CreateInput) (db : DB)
    (hs : (create_request inp db).1.isSuccess = true) :
    maxRequestId (create_request inp db).2 = maxRequestId db + 1 := by
  have hreq := (create_request_success_state inp db hs).1
  show (create_request inp db).2.requests.foldl (fun m r => max m r.Id) 0
      = maxRequestId db + 1
  rw [hreq, List.foldl_append]
  show max (maxRequestId db) (newRequestRow inp db).Id = maxRequestId db + 1
  simp [newRequestRow]

theorem create_request_failure_state (inp : CreateInput) (db : DB)
    (hf : (create_request inp db).1.isSuccess = false) :
    (create_request inp db).2 = db := by
  by_cases hp : projectionInvalid db (normalizeProjection inp.ProjectionId)
  · unfold create_request
    simp [hp]
  · exfalso
    unfold create_request at hf
    simp [hp, success_response, Resp.isSuccess] at hf

theorem maxRequestId_step_le (inp : CreateInput) (db : DB) :
    maxRequestId db ≤ maxRequestId (create_request inp db).2 := by
  cases hs : (create_request inp db).1.isSuccess with
  | true => rw [maxRequestId_after_success inp db hs]; omega
  | false => rw [create_request_failure_state inp db hs]

/-- Every successful result in a trace carries a number whose sequence value
exceeds the initial `maxRequestId`. -/
theorem runTrace_number_gt (tr : List CreateInput) :
    ∀ (db : DB) (k : Nat) (inp : CreateInput) (r : Resp CreateOut),
      tr[k]? = some inp → (runTrace db tr)[k]? = some r →
      r.isSuccess = true →
      ∃ s, maxRequestId db < s ∧ respNumber? r = some (rqNumber inp.date s) := by
  induction tr with
  | nil => intro db k inp r h; simp at h
  | cons a rest ih =>
      intro db k inp r hinp hr hs
      cases k with
      | zero =>
          simp only [List.getElem?_cons_zero, Option.some.injEq] at hinp
          simp only [runTrace, List.getElem?_cons_zero, Option.some.injEq] at hr
          subst hinp
          subst hr
          exact ⟨maxRequestId db + 1, Nat.lt_succ_self _,
            create_request_number_of_success a db hs⟩
      | succ k =>
          simp only [List.getElem?_cons_succ] at hinp
          simp only [runTrace, List.getElem?_cons_succ] at hr
          obtain ⟨s, hlt, hnum⟩ := ih (create_request a db).2 k inp r hinp hr hs
          exact ⟨s, Nat.lt_of_le_of_lt (maxRequestId_step_le a db) hlt, hnum⟩

/-- Two successful creations at positions `i < j` of a trace with the same
date produce different request numbers. -/
theorem runTrace_number_ne_of_lt (tr : List CreateInput) :
    ∀ (db : DB) (i j : Nat) (inp_i inp_j : CreateInput)
      (r_i r_j : Resp CreateOut),
      i < j →
      tr[i]? = some inp_i → tr[j]? = some inp_j →
      (runTrace db tr)[i]? = some r_i → (runTrace db tr)[j]? = some r_j →
      r_i.isSuccess = true → r_j.isSuccess = true →
      inp_i.date = inp_j.date →
      respNumber? r_i ≠ respNumber? r_j := by
  induction tr with
  | nil => intro db i j inp_i inp_j r_i r_j hij hi; simp at hi
  | cons a rest ih =>
      intro db i j inp_i inp_j r_i r_j hij hi hj hri hrj hsi hsj hdate
      cases i with
      | zero =>
          cases j with
          | zero => omega
          | succ j' =>
              simp only [List.getElem?_cons_zero, Option.some.injEq] at hi
              simp only [runTrace, List.getElem?_cons_zero, Option.some.injEq] at hri
              simp only [List.getElem?_cons_succ] at hj
              simp only [runTrace, List.getElem?_cons_succ] at hrj
              subst hi
              subst hri
              have hdb' : maxRequestId (create_request a db).2
                  = maxRequestId db + 1 :=
                maxRequestId_after_success a db hsi
              obtain ⟨s, hlt, hnum_j⟩ := runTrace_number_gt rest
                (create_request a db).2 j' inp_j r_j hj hrj hsj
              rw [hdb'] at hlt
              rw [create_request_number_of_success a db hsi, hnum_j, hdate]
              intro heq
              rw [Option.some.injEq] at heq
              have := rqNumber_inj inp_j.date heq
              omega
      | succ i' =>
          cases j with
          | zero => omega
          | succ j' =>
              simp only [List.getElem?_cons_succ] at hi hj
              simp only [runTrace, List.getElem?_cons_succ] at hri hrj
              exact ih (create_request a db).2 i' j' inp_i inp_j r_i r_j
                (Nat.lt_of_succ_lt_succ hij) hi hj hri hrj hsi hsj hdate

/-- C1: a successful creation returns the request number
`RQ-<date>-<seq zero-padded to 4>` where `seq` is the highest existing
request identifier plus one (1 when no request exists); and in a sequential
execution trace, two successful creations with the same date always produce
different request numbers. -/
theorem create_request_number_unique :
    (∀ (inp : CreateInput) (db : DB),
        (create_request inp db).1.isSuccess = true →
        respNumber? (create_request inp db).1
          = some (rqNumber inp.date
              (if db.requests.isEmpty then 1 else maxRequestId db + 1)))
    ∧ (∀ (db : DB) (tr : List CreateInput) (i j : Nat)
        (inp_i inp_j : CreateInput) (r_i r_j : Resp CreateOut),
        i ≠ j →
        tr[i]? = some inp_i → tr[j]? = some inp_j →
        (runTrace db tr)[i]? = some r_i → (runTrace db tr)[j]? = some r_j →
        r_i.isSuccess = true → r_j.isSuccess = true →
        inp_i.date = inp_j.date →
        respNumber? r_i ≠ respNumber? r_j) := by
  constructor
  · intro inp db hs
    rw [create_request_number_of_success inp db hs, seq_if_isEmpty db]
  · intro db tr i j inp_i inp_j r_i r_j hij hi hj hri hrj hsi hsj hdate
    rcases Nat.lt_or_ge i j with hlt | hge
    · exact runTrace_number_ne_of_lt tr db i j inp_i inp_j r_i r_j hlt hi hj
        hri hrj hsi hsj hdate
    · have hlt : j < i := by omega
      exact (runTrace_number_ne_of_lt tr db j i inp_j inp_i r_j r_i hlt hj hi
        hrj hri hsj hsi hdate.symm).symm

/-- First response of the two-creation witness trace. -/
def trResp1 : Resp CreateOut := (create_request goodProjInp emptyDB).1

/-- Second response of the two-creation witness trace. -/
def trResp2 : Resp CreateOut :=
  (create_request goodProjInp (create_request goodProjInp emptyDB).2).1

/-- Witness for C1: two concrete same-date creations on an empty database
succeed, the first one's number is built from sequence 1, and the two
returned numbers differ. -/
theorem create_request_number_unique_witness :
    (create_request goodProjInp emptyDB).1.isSuccess = true
    ∧ respNumber? (create_request goodProjInp emptyDB).1
      = some (rqNumber goodProjInp.date
          (if emptyDB.requests.isEmpty then 1 else maxRequestId emptyDB + 1))
    ∧ [goodProjInp, goodProjInp][0]? = some goodProjInp
    ∧ [goodProjInp, goodProjInp][1]? = some goodProjInp
    ∧ (runTrace emptyDB [goodProjInp, goodProjInp])[0]? = some trResp1
    ∧ (runTrace emptyDB [goodProjInp, goodProjInp])[1]? = some trResp2
    ∧ trResp1.isSuccess = true
    ∧ trResp2.isSuccess = true
    ∧ respNumber? trResp1 ≠ respNumber? trResp2 :=
  ⟨by decide,
   create_request_number_unique.1 goodProjInp emptyDB (by decide),
   rfl, rfl, rfl, rfl, by decide, by decide,
   create_request_number_unique.2 emptyDB [goodProjInp, goodProjInp] 0 1
     goodProjInp goodProjInp trResp1 trResp2 (by decide) rfl rfl rfl rfl
     (by decide) (by decide) rfl⟩
